import Mathlib

/-!
Verification of the SnapTrade → IBKR batch trading scripts.

This file gives a shallow embedding, in Lean 4, of the order pipeline found in
`test.py` (the developed `trade.py`-style variant) and of the order placement
path of `script.py`, and proves the specification claims about them.

Conventions of the embedding:
* Python `Decimal` values are modelled by `PyDecValue`: finite values
  (`PyDecimal`: sign, coefficient, exponent), quiet/signaling NaNs with an
  optional diagnostic payload, and infinities, parsed the way
  `decimal.Decimal(str)` parses (underscores removed throughout,
  case-insensitive special values).  Ordering comparisons against a NaN
  raise `InvalidOperation` under the default decimal context; such raises
  are modelled with `Except.error` and propagate out of
  `validate_order_row` and `process_orders` exactly as the uncaught Python
  exception does.
* Python dict rows from `csv.DictReader` are modelled as association lists of
  strings (`RowDict`).
* Python truthiness of optional strings (`if not x` for `x : Optional[str]`)
  is `pyFalsy` below: `None` and the empty string are falsy.
* External SnapTrade SDK calls are modelled by an oracle environment `ApiEnv`;
  a raised exception is an `Except.error` carrying a `PyErr` (whether it is an
  `ApiException` plus its text).  Functions that make API calls also return
  the list of calls they issued (`ApiCall`), so ordering claims can be stated.
* `idempotency_key` in the source is `sha256('|'.join(components))[:16]`;
  since the hash is a deterministic function of the joined string, the model
  uses the joined string itself as the key: equality of modelled keys is
  exactly equality of the hash pre-images.
-/

/-- Python truthiness test for `Optional[str]`: `None` and `''` are falsy. -/
def pyFalsy : Option String → Bool
  | none => true
  | some s => s == ""

/-- Python `a or b` for two `Optional[str]` values: `a` if truthy, else `b`. -/
def pyOrOpt (a b : Option String) : Option String :=
  if pyFalsy a then b else a

/-- ASCII uppercase of one character (kernel-evaluable model of Python's
`str.upper` per character; the pipeline only handles ASCII tickers and
keywords). -/
def charUpper (c : Char) : Char :=
  if 97 ≤ c.toNat ∧ c.toNat ≤ 122 then Char.ofNat (c.toNat - 32) else c

/-- ASCII lowercase of one character. -/
def charLower (c : Char) : Char :=
  if 65 ≤ c.toNat ∧ c.toNat ≤ 90 then Char.ofNat (c.toNat + 32) else c

/-- `str.upper()`. -/
def pyUpper (s : String) : String := String.mk (s.data.map charUpper)

/-- Python `str.strip()` whitespace test. -/
def pyIsSpace (c : Char) : Bool :=
  c = ' ' ∨ c = Char.ofNat 9 ∨ c = Char.ofNat 10 ∨ c = Char.ofNat 13 ∨
  c = Char.ofNat 11 ∨ c = Char.ofNat 12

/-- `str.strip()`: drop leading and trailing whitespace. -/
def pyStrip (s : String) : String :=
  String.mk (((s.data.dropWhile pyIsSpace).reverse.dropWhile pyIsSpace).reverse)

/-- Model of a finite `decimal.Decimal` value: sign, coefficient, exponent.
The value denoted is `(-1)^neg * coeff * 10^exp`.  Parsing drops leading
zeros of the coefficient into the `Nat`, as `Decimal` does. -/
structure PyDecimal where
  neg : Bool
  coeff : Nat
  exp : Int
  deriving DecidableEq, Repr

/-- Read a list of ASCII digit characters as a natural number. -/
def digitsToNat (acc : Nat) : List Char → Nat
  | [] => acc
  | c :: cs => digitsToNat (acc * 10 + (c.toNat - 48)) cs

/-- Consume an optional leading sign, returning the negativity flag. -/
def parseSignChars : List Char → Bool × List Char
  | '-' :: cs => (true, cs)
  | '+' :: cs => (false, cs)
  | cs => (false, cs)

/-- Magnitude of a finite decimal literal (after the sign): integer
digits, optional fractional digits after a point (at least one digit
overall), optional exponent part.  Returns coefficient and exponent. -/
def parseFiniteMag (cs1 : List Char) : Option (Nat × Int) :=
  let intPart := cs1.takeWhile Char.isDigit
  let cs2 := cs1.dropWhile Char.isDigit
  let fp : List Char × List Char :=
    match cs2 with
    | '.' :: r => (r.takeWhile Char.isDigit, r.dropWhile Char.isDigit)
    | _ => ([], cs2)
  let fracPart := fp.1
  let cs3 := fp.2
  if intPart.isEmpty && fracPart.isEmpty then none
  else
    match cs3 with
    | [] => some (digitsToNat 0 (intPart ++ fracPart), -(fracPart.length : Int))
    | c :: r =>
      if c == 'e' || c == 'E' then
        let q := parseSignChars r
        let ed := q.2.takeWhile Char.isDigit
        let rest := q.2.dropWhile Char.isDigit
        if ed.isEmpty || !rest.isEmpty then none
        else
          let e : Int := (if q.1 then -1 else 1) * (digitsToNat 0 ed : Int)
          some (digitsToNat 0 (intPart ++ fracPart), e - (fracPart.length : Int))
      else none

/-- `value <= 0` on a finite decimal: true iff the coefficient is zero or the
sign is negative. -/
def PyDecimal.leZero (d : PyDecimal) : Bool :=
  d.neg || d.coeff == 0

/-- Python `bool(d)` for a decimal: zero (of either sign) is falsy. -/
def PyDecimal.truthy (d : PyDecimal) : Bool :=
  !(d.coeff == 0)

/-- `str()` of a finite decimal, following the to-scientific-string rules of
the decimal arithmetic specification that `decimal.Decimal.__str__` uses. -/
def decToString (d : PyDecimal) : String :=
  let digits := toString d.coeff
  let n : Int := (digits.length : Int)
  let adjusted : Int := n - 1 + d.exp
  let body :=
    if d.exp ≤ 0 ∧ adjusted ≥ -6 then
      if d.exp = 0 then digits
      else
        let point : Int := n + d.exp
        if point ≤ 0 then "0." ++ String.mk (List.replicate (-point).toNat '0') ++ digits
        else (digits.take point.toNat) ++ "." ++ (digits.drop point.toNat)
    else
      let mant := if digits.length = 1 then digits else digits.take 1 ++ "." ++ digits.drop 1
      mant ++ "E" ++ (if adjusted ≥ 0 then "+" else "") ++ toString adjusted
  (if d.neg then "-" else "") ++ body

/-- A full `decimal.Decimal` value: finite, NaN (quiet or signaling, with
an optional diagnostic payload, leading zeros dropped as `int()` does), or
an infinity. -/
inductive PyDecValue where
  | fin (d : PyDecimal)
  | nan (neg : Bool) (signaling : Bool) (payload : Option Nat)
  | inf (neg : Bool)
  deriving DecidableEq, Repr

/-- `str()` of a decimal value (`'NaN'`, `'sNaN123'`, `'-Infinity'`, …). -/
def decValToString : PyDecValue → String
  | .fin d => decToString d
  | .nan neg sig payload =>
    (if neg then "-" else "") ++ (if sig then "sNaN" else "NaN") ++
      (match payload with
       | some p => toString p
       | none => "")
  | .inf neg => (if neg then "-" else "") ++ "Infinity"

/-- Python `bool()` of a decimal value: only (finite) zero is falsy; NaNs
and infinities are truthy. -/
def PyDecValue.truthy : PyDecValue → Bool
  | .fin d => d.truthy
  | _ => true

/-- The comparison `v <= 0` as Python evaluates it: defined on finite
values and infinities, but raising `decimal.InvalidOperation` on any NaN
(the default decimal context traps the `InvalidOperation` signal that
ordering comparisons with a NaN raise). -/
def PyDecValue.le_zero : PyDecValue → Except String Bool
  | .fin d => .ok d.leZero
  | .nan _ _ _ => .error "decimal.InvalidOperation"
  | .inf neg => .ok neg

/-- `x is None or x <= 0` for an optional price: short-circuits to `True`
when the price is absent, otherwise performs the (possibly raising)
comparison. -/
def optLeZero : Option PyDecValue → Except String Bool
  | none => .ok true
  | some v => v.le_zero

/-- Parse a decimal literal the way `decimal.Decimal(str)` does:
underscores are removed throughout (as the library documents), then an
optional sign followed by either a finite numeric part,
`Infinity`/`Inf`, or `NaN`/`sNaN` with an optional digit payload — the
keywords case-insensitive.  `none` models the `InvalidOperation`
constructor failure on anything else. -/
def parsePyDecimal (s : String) : Option PyDecValue :=
  let cs0 := s.data.filter (fun c => !(c == '_'))
  let p := parseSignChars cs0
  let neg := p.1
  let cs := p.2
  let low := cs.map charLower
  if low == "infinity".data || low == "inf".data then some (.inf neg)
  else if low.take 3 == "nan".data && (cs.drop 3).all Char.isDigit then
    some (.nan neg false
      (if (cs.drop 3).isEmpty then none else some (digitsToNat 0 (cs.drop 3))))
  else if low.take 4 == "snan".data && (cs.drop 4).all Char.isDigit then
    some (.nan neg true
      (if (cs.drop 4).isEmpty then none else some (digitsToNat 0 (cs.drop 4))))
  else (parseFiniteMag cs).map (fun m => PyDecValue.fin ⟨neg, m.1, m.2⟩)

/-- A CSV row as produced by `csv.DictReader`: an association list from
column names to string values. -/
def RowDict := List (String × String)

/-- `row_dict.get(k)` on a `RowDict`. -/
def RowDict.get (row : RowDict) (k : String) : Option String :=
  (List.find? (fun kv => kv.1 == k) row).map (fun kv => kv.2)

/-- `row_dict.get(k, '')`, the form used throughout `validate_order_row`. -/
def RowDict.getS (row : RowDict) (k : String) : String :=
  (RowDict.get row k).getD ""

/-- The whole-row trimming comprehension at the top of `validate_order_row`. -/
def RowDict.trimAll (row : RowDict) : RowDict :=
  row.map (fun kv => (kv.1, pyStrip kv.2))

/-- `parse_decimal` from `test.py`: `None` on blank input, otherwise
`Decimal(value.strip())`, with `None` on a parse failure. -/
def parse_decimal (value : String) : Option PyDecValue :=
  if pyStrip value == "" then none
  else parsePyDecimal (pyStrip value)

/-- A validated order, the `OrderRow` dataclass of `test.py`. -/
structure OrderRow where
  row_num : Nat
  account_id : String
  ticker : String
  side : String
  quantity : PyDecValue
  order_type : String
  limit_price : Option PyDecValue
  stop_price : Option PyDecValue
  time_in_force : String
  exchange : Option String
  deriving DecidableEq, Repr

/-- `str(x or '')` for `x : Optional[Decimal]`: empty for `None` and for a
zero decimal (which is falsy in Python), otherwise `str(x)`. -/
def optDecStr (o : Option PyDecValue) : String :=
  match o with
  | none => ""
  | some d => if d.truthy then decValToString d else ""

/-- `OrderRow.idempotency_key`.  The source joins the eight components with
`'|'` and returns the first 16 hex digits of the SHA-256 of that string; as
the hash is a deterministic function of the join, the model's key is the
joined string itself (equality of these joins is equality of the keys the
source computes). -/
def OrderRow.idempotency_key (o : OrderRow) : String :=
  String.intercalate "|"
    [o.account_id, o.ticker, o.side, decValToString o.quantity, o.order_type,
     optDecStr o.limit_price, optDecStr o.stop_price, o.time_in_force]

/-- The `OrderResult` dataclass of `test.py`. -/
structure OrderResult where
  row_num : Nat
  status : String
  reason : String
  broker_order_id : Option String := none
  filled_qty : Option String := none
  deriving DecidableEq, Repr

/-- One line of `results.csv`, i.e. `OrderResult.to_dict`. -/
structure ResultCsvRow where
  input_row : Nat
  status : String
  reason : String
  broker_order_id : String
  filled_qty : String
  deriving DecidableEq, Repr

/-- `OrderResult.to_dict`: `None` optionals become empty strings. -/
def OrderResult.to_dict (r : OrderResult) : ResultCsvRow :=
  ⟨r.row_num, r.status, r.reason, r.broker_order_id.getD "", r.filled_qty.getD ""⟩

/-- The price checks `validate_order_row` performs per order type
(test.py's `if order_type == 'LIMIT': ... elif ... elif ...` chain).
Returns the first error message, `none` when all pass — or raises
(`Except.error`) when a comparison hits a NaN price. -/
def validate_prices (order_type : String) (limit_price stop_price : Option PyDecValue) :
    Except String (Option String) :=
  if order_type = "LIMIT" then
    match optLeZero limit_price with
    | .error e => .error e
    | .ok true => .ok (some "LIMIT order requires a valid limit_price > 0")
    | .ok false => .ok none
  else if order_type = "STOP" then
    match optLeZero stop_price with
    | .error e => .error e
    | .ok true => .ok (some "STOP order requires a valid stop_price > 0")
    | .ok false => .ok none
  else if order_type = "STOP_LIMIT" then
    match optLeZero limit_price with
    | .error e => .error e
    | .ok true => .ok (some "STOP_LIMIT order requires a valid limit_price > 0")
    | .ok false =>
      match optLeZero stop_price with
      | .error e => .error e
      | .ok true => .ok (some "STOP_LIMIT order requires a valid stop_price > 0")
      | .ok false => .ok none
  else .ok none

/-- `validate_order_row` from `test.py`: trims the row, checks required
fields, side, order type, quantity, the prices demanded by the order type
and the time-in-force, and either builds the `OrderRow` or reports the
first failing check.  The function body contains no exception handler, so
when a `quantity <= 0` / price comparison hits a NaN the
`decimal.InvalidOperation` it raises propagates to the caller; that raise
is the `Except.error` case.  (The Python locals `side`, `order_type`,
`quantity`, ... are inlined as their defining expressions over the trimmed
row.) -/
def validate_order_row (row0 : RowDict) (row_num : Nat) :
    Except String (Option OrderRow × Option String) :=
  if !((["ticker", "side", "quantity", "order_type"].filter
      (fun f => pyFalsy (row0.trimAll.get f))).isEmpty) then
    .ok (none, some ("Missing required fields: " ++ String.intercalate ", "
      (["ticker", "side", "quantity", "order_type"].filter
        (fun f => pyFalsy (row0.trimAll.get f)))))
  else if pyUpper (row0.trimAll.getS "side") ≠ "BUY" ∧
      pyUpper (row0.trimAll.getS "side") ≠ "SELL" then
    .ok (none, some ("Invalid side '" ++ pyUpper (row0.trimAll.getS "side") ++
      "'. Must be BUY or SELL"))
  else if pyUpper (row0.trimAll.getS "order_type") ≠ "MARKET" ∧
      pyUpper (row0.trimAll.getS "order_type") ≠ "LIMIT" ∧
      pyUpper (row0.trimAll.getS "order_type") ≠ "STOP" ∧
      pyUpper (row0.trimAll.getS "order_type") ≠ "STOP_LIMIT" then
    .ok (none, some ("Invalid order_type '" ++ pyUpper (row0.trimAll.getS "order_type") ++
      "'. Must be one of: MARKET, LIMIT, STOP, STOP_LIMIT"))
  else
    match parse_decimal (row0.trimAll.getS "quantity") with
    | none => .ok (none, some "Invalid or missing quantity")
    | some quantity =>
      match quantity.le_zero with
      | .error e => .error e
      | .ok true =>
        .ok (none, some ("Quantity must be positive, got " ++ decValToString quantity))
      | .ok false =>
        match validate_prices (pyUpper (row0.trimAll.getS "order_type"))
            (parse_decimal (row0.trimAll.getS "limit_price"))
            (parse_decimal (row0.trimAll.getS "stop_price")) with
        | .error e => .error e
        | .ok (some msg) => .ok (none, some msg)
        | .ok none =>
          if (if pyUpper (row0.trimAll.getS "time_in_force") = "" then "DAY"
              else pyUpper (row0.trimAll.getS "time_in_force")) ≠ "DAY" ∧
              (if pyUpper (row0.trimAll.getS "time_in_force") = "" then "DAY"
              else pyUpper (row0.trimAll.getS "time_in_force")) ≠ "GTC" then
            .ok (none, some ("Invalid time_in_force '" ++
              (if pyUpper (row0.trimAll.getS "time_in_force") = "" then "DAY"
               else pyUpper (row0.trimAll.getS "time_in_force")) ++ "'. Must be DAY or GTC"))
          else
            .ok (some
              { row_num := row_num
                account_id := pyStrip (row0.trimAll.getS "account_id")
                ticker := pyUpper (row0.trimAll.getS "ticker")
                side := pyUpper (row0.trimAll.getS "side")
                quantity := quantity
                order_type := pyUpper (row0.trimAll.getS "order_type")
                limit_price := parse_decimal (row0.trimAll.getS "limit_price")
                stop_price := parse_decimal (row0.trimAll.getS "stop_price")
                time_in_force := (if pyUpper (row0.trimAll.getS "time_in_force") = "" then "DAY"
                  else pyUpper (row0.trimAll.getS "time_in_force"))
                exchange := (if pyStrip (row0.trimAll.getS "exchange") = "" then none
                  else some (pyStrip (row0.trimAll.getS "exchange"))) }, none)

/-- An exception raised by an SDK call: whether it is an `ApiException`
(with optional HTTP status, used only by the retry logic) and its text. -/
structure PyErr where
  isApi : Bool
  text : String
  deriving DecidableEq, Repr

/-- One symbol dict returned by the quotes endpoint, with the fields that
`search_symbols` / `get_universal_symbol_id` read. -/
structure SymbolInfo where
  symbol : String
  exchangeCode : String
  idField : Option String
  universalSymbolId : Option String
  deriving DecidableEq, Repr

/-- The impact-check response body: the two dict keys that
`check_order_impact` looks up. -/
structure ImpactData where
  trade_id : Option String
  tradeId : Option String
  deriving DecidableEq, Repr

/-- The place-order response body.  `nestedOrderId` is the already-stringified
`str(data.get('order', ...).get('id', ''))` fallback candidate. -/
structure PlaceData where
  order_id : Option String
  orderId : Option String
  idField : Option String
  nestedOrderId : String
  deriving DecidableEq, Repr

/-- The SnapTrade API calls the pipeline can make, as recorded in traces. -/
inductive ApiCall where
  | quotesCall (ticker : String)
  | impactCall (symbolId : String)
  | placeCall (tradeId : String)
  | refreshCall (accountId : String)
  deriving DecidableEq, Repr

/-- Oracle for the external SnapTrade SDK: the response (or exception) each
endpoint would produce.  Retry behaviour of `_call_with_retry` is modelled
separately; here an `Except.error` is the exception that ultimately
propagates out of the wrapped call. -/
structure ApiEnv where
  quotes : String → Except PyErr (List SymbolInfo)
  impact : OrderRow → String → Except PyErr ImpactData
  placeResp : String → Except PyErr PlaceData

/-- `search_symbols`: fetch quote symbols for the ticker, filter by exchange
when one is given, and prefer exact ticker matches.  Any exception yields the
empty list.  Also returns the API call made. -/
def search_symbols (env : ApiEnv) (ticker : String) (exchange : Option String) :
    List SymbolInfo × List ApiCall :=
  let tr := [ApiCall.quotesCall ticker]
  match env.quotes ticker with
  | .error _ => ([], tr)
  | .ok symbols0 =>
    let symbols1 :=
      if !pyFalsy exchange && !symbols0.isEmpty then
        symbols0.filter
          (fun s => pyUpper s.exchangeCode == pyUpper (exchange.getD ""))
      else symbols0
    let result :=
      if !symbols1.isEmpty then
        let exacts := symbols1.filter (fun s => pyUpper s.symbol == pyUpper ticker)
        if !exacts.isEmpty then exacts else symbols1
      else symbols1
    (result, tr)

/-- `get_universal_symbol_id`: resolve a ticker via `search_symbols`.
`none` when nothing was found, or when several symbols match and no exchange
was given; otherwise the first symbol's `id` (falling back on its
`universal_symbol_id` when `id` is falsy). -/
def get_universal_symbol_id (env : ApiEnv) (ticker : String)
    (exchange : Option String) : Option String × List ApiCall :=
  let sr := search_symbols env ticker exchange
  match sr.1 with
  | [] => (none, sr.2)
  | s0 :: rest =>
    if !rest.isEmpty && pyFalsy exchange then (none, sr.2)
    else (pyOrOpt s0.idField s0.universalSymbolId, sr.2)

/-- `check_order_impact`: step 1 of the two-step flow.  Returns
`(success, trade_id, error_message)` exactly as the source does: an exception
gives a failure message, a response without a truthy `trade_id`/`tradeId`
fails, otherwise success with that trade id. -/
def check_order_impact (env : ApiEnv) (order : OrderRow) (symbolId : String) :
    Bool × Option String × Option String :=
  match env.impact order symbolId with
  | .error e =>
    if e.isApi then (false, none, some ("Impact check failed: " ++ e.text.take 200))
    else (false, none, some ("Impact check error: " ++ e.text))
  | .ok data =>
    let trade_id := pyOrOpt data.trade_id data.tradeId
    if pyFalsy trade_id then
      (false, none, some "No trade_id in impact check response")
    else (true, trade_id, none)

/-- `place_order`: step 2 of the two-step flow.  Returns
`(success, broker_order_id, error_message)`.  On success the order id is the
first truthy of the response's candidate id fields, falling back to the
`trade_id` when all are falsy. -/
def place_order (env : ApiEnv) (tradeId : String) :
    Bool × Option String × Option String :=
  match env.placeResp tradeId with
  | .error e =>
    if e.isApi then (false, none, some ("Broker rejected: " ++ e.text.take 200))
    else (false, none, some ("Placement error: " ++ e.text))
  | .ok data =>
    let cand := pyOrOpt (pyOrOpt data.order_id data.orderId) data.idField
    let candStr := if pyFalsy cand then data.nestedOrderId else cand.getD ""
    let order_id := if candStr == "" then tradeId else candStr
    (true, some order_id, none)

/-- The duplicate-order message of `process_single_order`. -/
def dupMsg : String :=
  "Duplicate order detected (same parameters already processed in this run)"

/-- The `OrderResult` built for a duplicate order. -/
def dupResult (rowNum : Nat) : OrderResult :=
  { row_num := rowNum, status := "SKIPPED", reason := dupMsg }

/-- The `OrderResult` built when symbol resolution fails. -/
def symbolNotFoundResult (o : OrderRow) : OrderResult :=
  { row_num := o.row_num, status := "FAILED",
    reason := "Symbol not found: " ++ o.ticker ++
      (match o.exchange with
       | some e => if e ≠ "" then " on " ++ e else ""
       | none => "") }

/-- The `OrderResult` built when the impact check fails. -/
def impactFailResult (o : OrderRow) (err : Option String) : OrderResult :=
  { row_num := o.row_num, status := "FAILED",
    reason := "Impact check failed: " ++ err.getD "" }

/-- The `OrderResult` built in dry-run mode after a passing impact check. -/
def dryRunResult (o : OrderRow) : OrderResult :=
  { row_num := o.row_num, status := "VALIDATED",
    reason := "Dry-run: impact check passed, order not placed" }

/-- The `OrderResult` built when placement fails. -/
def placeFailResult (o : OrderRow) (err : Option String) : OrderResult :=
  { row_num := o.row_num, status := "FAILED",
    reason := "Order placement failed: " ++ err.getD "" }

/-- The `OrderResult` built when the order is placed. -/
def placedResult (o : OrderRow) (brokerId : Option String) : OrderResult :=
  { row_num := o.row_num, status := "PLACED",
    reason := "Order placed successfully", broker_order_id := brokerId }

/-- `process_single_order`: duplicate check, symbol resolution, impact
check, (unless dry-run) placement, best-effort account refresh.  Returns the
result, the updated idempotency set (threaded explicitly) and the trace of
API calls made for this order. -/
def process_single_order (env : ApiEnv) (dry_run : Bool) (order : OrderRow)
    (seen_keys : List String) : OrderResult × List String × List ApiCall :=
  let idem_key := order.idempotency_key
  if idem_key ∈ seen_keys then
    (dupResult order.row_num, seen_keys, [])
  else
    let seen := idem_key :: seen_keys
    let gus := get_universal_symbol_id env order.ticker order.exchange
    if pyFalsy gus.1 then
      (symbolNotFoundResult order, seen, gus.2)
    else
      let sid := gus.1.getD ""
      let imp := check_order_impact env order sid
      let tr2 := gus.2 ++ [ApiCall.impactCall sid]
      if !imp.1 then
        (impactFailResult order imp.2.2, seen, tr2)
      else if dry_run then
        (dryRunResult order, seen, tr2)
      else
        let tid := imp.2.1.getD ""
        let pl := place_order env tid
        let tr3 := tr2 ++ [ApiCall.placeCall tid]
        if !pl.1 then
          (placeFailResult order pl.2.2, seen, tr3)
        else
          let tr4 := if order.account_id ≠ "" then
              tr3 ++ [ApiCall.refreshCall order.account_id]
            else tr3
          (placedResult order pl.2.1, seen, tr4)

/-- The second pass of `process_orders` (sequential execution): process each
validated order in turn, threading the idempotency set. -/
def processValidatedSeq (env : ApiEnv) (dry_run : Bool) :
    List OrderRow → List String → List (OrderResult × List ApiCall) × List String
  | [], seen => ([], seen)
  | o :: rest, seen =>
    let r := process_single_order env dry_run o seen
    let recr := processValidatedSeq env dry_run rest r.2.1
    ((r.1, r.2.2) :: recr.1, recr.2)

/-- The first pass of `process_orders`: validate every row in order,
producing a SKIPPED result for each invalid row and the list of validated
orders.  The pass runs with no exception handler (test.py:761-772), so a
raise inside `validate_order_row` aborts the whole batch: the first
`Except.error` propagates and every accumulated result is lost.
(`validate_order_row` never returns a falsy error together with no order;
that arm is dead.) -/
def validatePass : List (Nat × RowDict) → Except String (List OrderResult × List OrderRow)
  | [] => .ok ([], [])
  | (n, row) :: rest =>
    match validate_order_row row n with
    | .error e => .error e
    | .ok v =>
      match validatePass rest with
      | .error e => .error e
      | .ok p =>
        if pyFalsy v.2 then
          match v.1 with
          | some o => .ok (p.1, o :: p.2)
          | none => .ok (p.1, p.2)
        else
          .ok ({ row_num := n, status := "SKIPPED", reason := "Validation error: " ++ (v.2.getD "") } :: p.1, p.2)

/-- `process_orders` in its sequential (default, `concurrency = 1`) mode:
validation-pass results followed by the processing-pass results.  An
exception raised during the unguarded validation pass propagates
(`Except.error`): the function then returns no result list at all. -/
def process_orders (env : ApiEnv) (dry_run : Bool)
    (orders : List (Nat × RowDict)) : Except String (List OrderResult) :=
  match validatePass orders with
  | .error e => .error e
  | .ok vp =>
    .ok (vp.1 ++ ((processValidatedSeq env dry_run vp.2 []).1.map (fun p => p.1)))

/-- `write_results_csv`: the data lines written (one per result, after the
header line), sorted stably by input row number as `sorted(...)` does. -/
def write_results_csv (results : List OrderResult) : List ResultCsvRow :=
  (List.insertionSort (fun a b => a.row_num ≤ b.row_num) results).map
    OrderResult.to_dict

/-- Outcome of one invocation of the function wrapped by `_call_with_retry`:
a value, an `ApiException` (whose `status` attribute may be absent), or any
other exception. -/
inductive CallOutcome (α : Type) where
  | success (v : α)
  | apiExc (status : Option Int) (text : String)
  | exc (text : String)
  deriving DecidableEq, Repr

/-- An exception as re-raised by `_call_with_retry`. -/
inductive RetryExc where
  | api (status : Option Int) (text : String)
  | other (text : String)
  deriving DecidableEq, Repr

/-- How a `_call_with_retry` call ends: a normal return (of the wrapped
result, or of Python's implicit `None` when the loop body never runs) or a
raised exception. -/
inductive RetryOutcome (α : Type) where
  | returned (v : Option α)
  | raised (e : RetryExc)
  deriving DecidableEq, Repr

/-- A complete `_call_with_retry` execution: its outcome, how many times the
wrapped function was invoked, and the backoff sleeps performed (in seconds,
in order). -/
structure RetryRun (α : Type) where
  outcome : RetryOutcome α
  invocations : Nat
  sleeps : List Nat
  deriving DecidableEq, Repr

/-- The loop body of `_call_with_retry`.  `oracle k` is what the wrapped
function does on its `k`-th invocation (attempts count from 0).  `fuel` is
the number of loop iterations left (`max_retries + 1` at the top);
`lastExc` is the `last_exception` variable, `inv` and `sleeps` are the
accumulated invocation count and sleep log. -/
def retryGo {α : Type} (maxRetries : Int) (oracle : Nat → CallOutcome α) :
    Nat → Nat → Option RetryExc → Nat → List Nat → RetryRun α
  | 0, _, lastExc, inv, sleeps =>
    match lastExc with
    | some e => ⟨.raised e, inv, sleeps.reverse⟩
    | none => ⟨.returned none, inv, sleeps.reverse⟩
  | fuel + 1, attempt, _, inv, sleeps =>
    match oracle attempt with
    | .success v => ⟨.returned (some v), inv + 1, sleeps.reverse⟩
    | .apiExc st txt =>
      let e := RetryExc.api st txt
      match st with
      | some s =>
        if 400 ≤ s ∧ s < 500 ∧ s ≠ 429 then
          ⟨.raised e, inv + 1, sleeps.reverse⟩
        else if s = 429 then
          retryGo maxRetries oracle fuel (attempt + 1) (some e) (inv + 1)
            (2 ^ attempt :: sleeps)
        else if 500 ≤ s ∧ s < 600 ∧ (attempt : Int) < maxRetries then
          retryGo maxRetries oracle fuel (attempt + 1) (some e) (inv + 1)
            (2 ^ attempt :: sleeps)
        else if (attempt : Int) < maxRetries then
          retryGo maxRetries oracle fuel (attempt + 1) (some e) (inv + 1)
            (2 ^ attempt :: sleeps)
        else ⟨.raised e, inv + 1, sleeps.reverse⟩
      | none =>
        if (attempt : Int) < maxRetries then
          retryGo maxRetries oracle fuel (attempt + 1) (some e) (inv + 1)
            (2 ^ attempt :: sleeps)
        else ⟨.raised e, inv + 1, sleeps.reverse⟩
    | .exc txt =>
      let e := RetryExc.other txt
      if (attempt : Int) < maxRetries then
        retryGo maxRetries oracle fuel (attempt + 1) (some e) (inv + 1)
          (2 ^ attempt :: sleeps)
      else ⟨.raised e, inv + 1, sleeps.reverse⟩

/-- `_call_with_retry`: run the loop `for attempt in range(max_retries + 1)`.
A negative `max_retries` gives an empty range, so the wrapped function is
never invoked and Python's implicit `None` is returned. -/
def call_with_retry {α : Type} (maxRetries : Int) (oracle : Nat → CallOutcome α) :
    RetryRun α :=
  retryGo maxRetries oracle (maxRetries + 1).toNat 0 none 0 []

/-- `_apply_rate_limit`, with wall-clock time made explicit.  `last` is
`self._last_request_time`, `now` is the value of the first `time.time()`
call, and `eps ≥ 0` is whatever extra real time passes before the second
`time.time()` call that stores the new `_last_request_time`.  Returns the
sleep duration performed and the new `_last_request_time`. -/
def apply_rate_limit (rate_limit : Int) (last now eps : ℚ) : ℚ × ℚ :=
  let sleepD : ℚ :=
    if rate_limit > 0 then
      let min_gap : ℚ := 1 / (rate_limit : ℚ)
      let elapsed := now - last
      if elapsed < min_gap then min_gap - elapsed else 0
    else 0
  (sleepD, now + sleepD + eps)

/-- One symbol dict as read by `script.py`'s `search_symbol`. -/
structure ScriptSymbol where
  symbol : String
  idField : Option String
  deriving DecidableEq, Repr

/-- The body of a `place_force_order` response (`None` models a falsy body). -/
structure ScriptPlaceBody where
  id : Option String
  status : Option String
  deriving DecidableEq, Repr

/-- The `order_data` payload `script.py` builds for `place_force_order`. -/
structure ScriptOrderData where
  account_id : String
  action : String
  order_type : String
  time_in_force : String
  universal_symbol_id : String
  units : Int
  price : Option ℚ
  deriving DecidableEq, Repr

/-- API calls made by `script.py`'s order path. -/
inductive ScriptCall where
  | searchCall (symbol : String)
  | placeForceCall (data : ScriptOrderData)
  deriving DecidableEq, Repr

/-- Oracle for the SnapTrade endpoints `script.py` uses. -/
structure ScriptEnv where
  symbolSearch : String → String → Except PyErr (List ScriptSymbol)
  placeForce : ScriptOrderData → Except PyErr (Option ScriptPlaceBody)

/-- The CSV order dict of `script.py`, restricted to the fields
`place_order_from_csv` reads. -/
structure CsvOrder where
  symbol : String
  action : String
  quantity : ℚ
  order_type : String
  lmt_price : Option ℚ
  time_in_force : String
  deriving DecidableEq, Repr

/-- The loop of `script.py`'s `search_symbol`: first exact-name match with a
truthy id wins. -/
def findExactId : List ScriptSymbol → String → Option String
  | [], _ => none
  | s :: rest, sym =>
    if pyUpper s.symbol == pyUpper sym && !pyFalsy s.idField then s.idField
    else findExactId rest sym

/-- `script.py`'s `search_symbol`: exact match preferred, else the first
result's id when truthy, `None` on an empty response or any exception. -/
def script_search_symbol (env : ScriptEnv) (accountId symbol : String) :
    Option String :=
  match env.symbolSearch accountId symbol with
  | .error _ => none
  | .ok body =>
    if body.isEmpty then none
    else
      match findExactId body symbol with
      | some i => some i
      | none =>
        match body with
        | [] => none
        | b0 :: _ => if pyFalsy b0.idField then none else b0.idField

/-- `order_type_map.get(order_type, 'Market')` from `script.py`. -/
def order_type_map (t : String) : String :=
  if t = "MKT" ∨ t = "MARKET" then "Market"
  else if t = "LMT" ∨ t = "LIMIT" then "Limit"
  else if t = "STP" ∨ t = "STOP" then "Stop"
  else "Market"

/-- `tif_map.get(tif, 'Day')` from `script.py`. -/
def tif_map (t : String) : String :=
  if t = "DAY" then "Day"
  else if t = "GTC" then "GTC"
  else if t = "IOC" then "IOC"
  else if t = "FOK" then "FOK"
  else "Day"

/-- Python `str.capitalize()`. -/
def pyCapitalize (s : String) : String :=
  match s.data with
  | [] => ""
  | c :: cs => String.mk (charUpper c :: cs.map charLower)

/-- Python `x and y` truthiness for an optional price: truthy iff present
and nonzero. -/
def priceTruthy : Option ℚ → Bool
  | none => false
  | some v => !(v == 0)

/-- `script.py`'s `place_order_from_csv`: resolve the symbol, and in dry-run
mode return `True` without placing; otherwise build the payload and call
`place_force_order`, succeeding iff the response body is truthy.  Returns the
success flag and the trace of SnapTrade calls. -/
def place_order_from_csv (env : ScriptEnv) (dry_run : Bool)
    (accountId : String) (o : CsvOrder) : Bool × List ScriptCall :=
  let tr1 := [ScriptCall.searchCall o.symbol]
  match script_search_symbol env accountId o.symbol with
  | none => (false, tr1)
  | some sid =>
    if sid == "" then (false, tr1)
    else
      let snapType := order_type_map o.order_type
      let snapTif := tif_map o.time_in_force
      if dry_run then (true, tr1)
      else
        let data : ScriptOrderData :=
          { account_id := accountId
            action := pyCapitalize o.action
            order_type := snapType
            time_in_force := snapTif
            universal_symbol_id := sid
            units := ⌊o.quantity⌋
            price := if snapType = "Limit" ∧ priceTruthy o.lmt_price then
                o.lmt_price
              else none }
        let tr2 := tr1 ++ [ScriptCall.placeForceCall data]
        match env.placeForce data with
        | .error _ => (false, tr2)
        | .ok none => (false, tr2)
        | .ok (some _) => (true, tr2)

/-- A truthy optional string is a concrete nonempty string. -/
lemma pyFalsy_eq_false {o : Option String} (h : pyFalsy o = false) :
    ∃ s, o = some s ∧ s ≠ "" := by
  cases o with
  | none => simp [pyFalsy] at h
  | some s =>
    refine ⟨s, rfl, ?_⟩
    simpa [pyFalsy] using h

/-- A successful impact check carries a nonempty trade id. -/
lemma check_order_impact_ok {env : ApiEnv} {o : OrderRow} {sid : String}
    (h : (check_order_impact env o sid).1 = true) :
    ∃ t, (check_order_impact env o sid).2.1 = some t ∧ t ≠ "" := by
  unfold check_order_impact at h ⊢
  cases henv : env.impact o sid with
  | error e =>
    rw [henv] at h
    by_cases ha : e.isApi <;> simp [ha] at h
  | ok data =>
    rw [henv] at h
    by_cases hf : pyFalsy (pyOrOpt data.trade_id data.tradeId) = true
    · simp [hf] at h
    · have hf' : pyFalsy (pyOrOpt data.trade_id data.tradeId) = false := by
        simpa using hf
      obtain ⟨t, ht, hne⟩ := pyFalsy_eq_false hf'
      exact ⟨t, by simp [hf', ht, pyFalsy, hne], hne⟩

/-- A successful placement returns a broker order id, nonempty whenever the
trade id it was called with is nonempty (the fallback). -/
lemma place_order_ok {env : ApiEnv} {tid : String} (htid : tid ≠ "")
    (h : (place_order env tid).1 = true) :
    ∃ s, (place_order env tid).2.1 = some s ∧ s ≠ "" := by
  unfold place_order at h ⊢
  cases henv : env.placeResp tid with
  | error e =>
    rw [henv] at h
    by_cases ha : e.isApi <;> simp [ha] at h
  | ok data =>
    by_cases hc : pyFalsy (pyOrOpt (pyOrOpt data.order_id data.orderId) data.idField) = true
    · by_cases hn : data.nestedOrderId = ""
      · exact ⟨tid, by simp [hc, hn], htid⟩
      · exact ⟨data.nestedOrderId, by simp [hc, hn], hn⟩
    · have hc' : pyFalsy (pyOrOpt (pyOrOpt data.order_id data.orderId) data.idField) = false := by
        simpa using hc
      obtain ⟨s, hs, hne⟩ := pyFalsy_eq_false hc'
      refine ⟨s, ?_, hne⟩
      simp [hc', hs, hne, pyFalsy]

/-- Branch lemma: a duplicate key short-circuits everything. -/
lemma psc_dup {env : ApiEnv} {dry : Bool} {o : OrderRow} {seen : List String}
    (h : o.idempotency_key ∈ seen) :
    process_single_order env dry o seen = (dupResult o.row_num, seen, []) := by
  unfold process_single_order
  simp [h]

/-- Branch lemma: failed symbol resolution stops after the quotes call. -/
lemma psc_resolve_fail {env : ApiEnv} {dry : Bool} {o : OrderRow}
    {seen : List String} (h : o.idempotency_key ∉ seen)
    (hr : pyFalsy (get_universal_symbol_id env o.ticker o.exchange).1 = true) :
    process_single_order env dry o seen =
      (symbolNotFoundResult o, o.idempotency_key :: seen,
        (get_universal_symbol_id env o.ticker o.exchange).2) := by
  unfold process_single_order
  simp [h, hr]

/-- Branch lemma: a failed impact check stops after quotes and impact calls. -/
lemma psc_impact_fail {env : ApiEnv} {dry : Bool} {o : OrderRow}
    {seen : List String} (h : o.idempotency_key ∉ seen)
    (hr : pyFalsy (get_universal_symbol_id env o.ticker o.exchange).1 = false)
    (hi : (check_order_impact env o
        ((get_universal_symbol_id env o.ticker o.exchange).1.getD "")).1 = false) :
    process_single_order env dry o seen =
      (impactFailResult o (check_order_impact env o
          ((get_universal_symbol_id env o.ticker o.exchange).1.getD "")).2.2,
        o.idempotency_key :: seen,
        (get_universal_symbol_id env o.ticker o.exchange).2 ++
          [ApiCall.impactCall
            ((get_universal_symbol_id env o.ticker o.exchange).1.getD "")]) := by
  unfold process_single_order
  simp [h, hr, hi]

/-- Branch lemma: dry-run returns VALIDATED after a passing impact check. -/
lemma psc_dry {env : ApiEnv} {o : OrderRow} {seen : List String}
    (h : o.idempotency_key ∉ seen)
    (hr : pyFalsy (get_universal_symbol_id env o.ticker o.exchange).1 = false)
    (hi : (check_order_impact env o
        ((get_universal_symbol_id env o.ticker o.exchange).1.getD "")).1 = true) :
    process_single_order env true o seen =
      (dryRunResult o, o.idempotency_key :: seen,
        (get_universal_symbol_id env o.ticker o.exchange).2 ++
          [ApiCall.impactCall
            ((get_universal_symbol_id env o.ticker o.exchange).1.getD "")]) := by
  unfold process_single_order
  simp [h, hr, hi]

/-- Branch lemma: live mode with a failing placement. -/
lemma psc_place_fail {env : ApiEnv} {o : OrderRow} {seen : List String}
    (h : o.idempotency_key ∉ seen)
    (hr : pyFalsy (get_universal_symbol_id env o.ticker o.exchange).1 = false)
    (hi : (check_order_impact env o
        ((get_universal_symbol_id env o.ticker o.exchange).1.getD "")).1 = true)
    (hp : (place_order env ((check_order_impact env o
        ((get_universal_symbol_id env o.ticker o.exchange).1.getD "")).2.1.getD "")).1 = false) :
    process_single_order env false o seen =
      (placeFailResult o (place_order env ((check_order_impact env o
          ((get_universal_symbol_id env o.ticker o.exchange).1.getD "")).2.1.getD "")).2.2,
        o.idempotency_key :: seen,
        (get_universal_symbol_id env o.ticker o.exchange).2 ++
          [ApiCall.impactCall
            ((get_universal_symbol_id env o.ticker o.exchange).1.getD "")] ++
          [ApiCall.placeCall ((check_order_impact env o
            ((get_universal_symbol_id env o.ticker o.exchange).1.getD "")).2.1.getD "")]) := by
  unfold process_single_order
  simp [h, hr, hi, hp]

/-- Branch lemma: live mode with a successful placement. -/
lemma psc_placed {env : ApiEnv} {o : OrderRow} {seen : List String}
    (h : o.idempotency_key ∉ seen)
    (hr : pyFalsy (get_universal_symbol_id env o.ticker o.exchange).1 = false)
    (hi : (check_order_impact env o
        ((get_universal_symbol_id env o.ticker o.exchange).1.getD "")).1 = true)
    (hp : (place_order env ((check_order_impact env o
        ((get_universal_symbol_id env o.ticker o.exchange).1.getD "")).2.1.getD "")).1 = true) :
    process_single_order env false o seen =
      (placedResult o (place_order env ((check_order_impact env o
          ((get_universal_symbol_id env o.ticker o.exchange).1.getD "")).2.1.getD "")).2.1,
        o.idempotency_key :: seen,
        ((get_universal_symbol_id env o.ticker o.exchange).2 ++
          [ApiCall.impactCall
            ((get_universal_symbol_id env o.ticker o.exchange).1.getD "")] ++
          [ApiCall.placeCall ((check_order_impact env o
            ((get_universal_symbol_id env o.ticker o.exchange).1.getD "")).2.1.getD "")]) ++
          (if o.account_id ≠ "" then [ApiCall.refreshCall o.account_id] else [])) := by
  unfold process_single_order
  by_cases ha : o.account_id = "" <;> simp [h, hr, hi, hp, ha]

/-- C10: every `OrderResult` produced by `process_single_order` has a
non-`None` `broker_order_id` if and only if its status is PLACED, and in the
PLACED case the id is a nonempty string (thanks to the `trade_id` fallback
in `place_order`). -/
theorem C10_broker_id_iff_placed (env : ApiEnv) (dry : Bool) (o : OrderRow)
    (seen : List String) :
    ((process_single_order env dry o seen).1.broker_order_id ≠ none ↔
      (process_single_order env dry o seen).1.status = "PLACED") ∧
    ((process_single_order env dry o seen).1.status = "PLACED" →
      ∃ s, (process_single_order env dry o seen).1.broker_order_id = some s ∧
        s ≠ "") := by
  by_cases hdup : o.idempotency_key ∈ seen
  · rw [psc_dup hdup]
    refine ⟨by simp [dupResult], by simp [dupResult]⟩
  · by_cases hr : pyFalsy (get_universal_symbol_id env o.ticker o.exchange).1 = true
    · rw [psc_resolve_fail hdup hr]
      refine ⟨by simp [symbolNotFoundResult], by simp [symbolNotFoundResult]⟩
    · have hr' : pyFalsy (get_universal_symbol_id env o.ticker o.exchange).1 = false := by
        simpa using hr
      by_cases hi : (check_order_impact env o
          ((get_universal_symbol_id env o.ticker o.exchange).1.getD "")).1 = true
      · cases dry with
        | true =>
          rw [psc_dry hdup hr' hi]
          refine ⟨by simp [dryRunResult], by simp [dryRunResult]⟩
        | false =>
          obtain ⟨t, ht, hne⟩ := check_order_impact_ok hi
          have htid : ((check_order_impact env o
              ((get_universal_symbol_id env o.ticker o.exchange).1.getD "")).2.1.getD "") ≠ "" := by
            rw [ht]; simpa using hne
          by_cases hp : (place_order env ((check_order_impact env o
              ((get_universal_symbol_id env o.ticker o.exchange).1.getD "")).2.1.getD "")).1 = true
          · rw [psc_placed hdup hr' hi hp]
            obtain ⟨s, hs, hsne⟩ := place_order_ok htid hp
            refine ⟨?_, ?_⟩
            · simp [placedResult, hs]
            · intro _
              exact ⟨s, by simp [placedResult, hs], hsne⟩
          · have hp' : (place_order env ((check_order_impact env o
                ((get_universal_symbol_id env o.ticker o.exchange).1.getD "")).2.1.getD "")).1 = false := by
              simpa using hp
            rw [psc_place_fail hdup hr' hi hp']
            refine ⟨by simp [placeFailResult], by simp [placeFailResult]⟩
      · have hi' : (check_order_impact env o
            ((get_universal_symbol_id env o.ticker o.exchange).1.getD "")).1 = false := by
          simpa using hi
        rw [psc_impact_fail hdup hr' hi']
        refine ⟨by simp [impactFailResult], by simp [impactFailResult]⟩

/-- Symbol resolution always makes exactly one quotes call. -/
lemma gus_trace (env : ApiEnv) (t : String) (ex : Option String) :
    (get_universal_symbol_id env t ex).2 = [ApiCall.quotesCall t] := by
  unfold get_universal_symbol_id search_symbols
  cases env.quotes t <;> simp
  case ok l =>
    split
    · simp
    · split <;> simp

/-- C5: with dry-run enabled the placement API is never invoked: in
`test.py` no `placeCall` ever appears in a dry-run trace and an order that
gets through symbol resolution and the impact check comes back VALIDATED;
in `script.py` no `place_force_order` call appears and
`place_order_from_csv` returns `True` (right after the symbol search) before
any placement. -/
theorem C5_dry_run_never_places (env : ApiEnv) (o : OrderRow)
    (seen : List String) (senv : ScriptEnv) (acct : String) (co : CsvOrder) :
    (∀ t, ApiCall.placeCall t ∉ (process_single_order env true o seen).2.2) ∧
    (o.idempotency_key ∉ seen →
      pyFalsy (get_universal_symbol_id env o.ticker o.exchange).1 = false →
      (check_order_impact env o
          ((get_universal_symbol_id env o.ticker o.exchange).1.getD "")).1 = true →
      (process_single_order env true o seen).1.status = "VALIDATED") ∧
    (∀ d, ScriptCall.placeForceCall d ∉ (place_order_from_csv senv true acct co).2) ∧
    (∀ sid, script_search_symbol senv acct co.symbol = some sid → sid ≠ "" →
      place_order_from_csv senv true acct co =
        (true, [ScriptCall.searchCall co.symbol])) := by
  refine ⟨?_, ?_, ?_, ?_⟩
  · intro t
    by_cases hdup : o.idempotency_key ∈ seen
    · rw [psc_dup hdup]; simp
    · by_cases hr : pyFalsy (get_universal_symbol_id env o.ticker o.exchange).1 = true
      · rw [psc_resolve_fail hdup hr, gus_trace]; simp
      · have hr' : pyFalsy (get_universal_symbol_id env o.ticker o.exchange).1 = false := by
          simpa using hr
        by_cases hi : (check_order_impact env o
            ((get_universal_symbol_id env o.ticker o.exchange).1.getD "")).1 = true
        · rw [psc_dry hdup hr' hi, gus_trace]; simp
        · have hi' : (check_order_impact env o
              ((get_universal_symbol_id env o.ticker o.exchange).1.getD "")).1 = false := by
            simpa using hi
          rw [psc_impact_fail hdup hr' hi', gus_trace]; simp
  · intro hdup hr hi
    rw [psc_dry hdup hr hi]
    simp [dryRunResult]
  · intro d
    unfold place_order_from_csv
    cases hs : script_search_symbol senv acct co.symbol with
    | none => simp
    | some sid => by_cases hz : sid == "" <;> simp [hz]
  · intro sid hs hne
    unfold place_order_from_csv
    rw [hs]
    simp [hne]

/-- C6: with a positive configured rate limit `R`, `_apply_rate_limit`
sleeps as needed so that the newly recorded request start time is at least
`1/R` seconds after the previously recorded one (whatever extra wall time
`eps` elapses); with `R ≤ 0` it never sleeps and just records the current
time, enforcing no minimum gap. -/
theorem C6_rate_limit_gap (R : Int) (last now eps : ℚ) (heps : 0 ≤ eps) :
    (0 < R → (apply_rate_limit R last now eps).2 - last ≥ 1 / (R : ℚ)) ∧
    (R ≤ 0 → (apply_rate_limit R last now eps).1 = 0 ∧
      (apply_rate_limit R last now eps).2 = now + eps) := by
  constructor
  · intro hR
    have hR' : (0 : ℚ) < (R : ℚ) := by exact_mod_cast hR
    unfold apply_rate_limit
    simp only [hR, if_pos]
    by_cases hlt : now - last < 1 / (R : ℚ)
    · simp only [hlt, if_pos]
      have : (0 : ℚ) < 1 / (R : ℚ) := by positivity
      linarith
    · have hge : 1 / (R : ℚ) ≤ now - last := le_of_not_lt hlt
      simp only [hlt, if_neg, not_false_iff]
      linarith
  · intro hR
    have hR' : ¬ (R > 0) := by omega
    unfold apply_rate_limit
    simp [hR']

/-- C6 witness: at rate limit 5 with both clock readings at the previous
request time, the enforced gap is 1/5 s. -/
theorem C6_rate_limit_gap_witness :
    (0 : ℚ) ≤ 0 ∧
    ((0 < (5 : Int) → (apply_rate_limit 5 0 0 0).2 - 0 ≥ 1 / ((5 : Int) : ℚ)) ∧
     ((5 : Int) ≤ 0 → (apply_rate_limit 5 0 0 0).1 = 0 ∧
       (apply_rate_limit 5 0 0 0).2 = 0 + 0)) :=
  ⟨le_refl 0, C6_rate_limit_gap 5 0 0 0 (le_refl 0)⟩

/-- Whether one invocation outcome is a normal return of the wrapped call. -/
def CallOutcome.isSuccess {α : Type} : CallOutcome α → Bool
  | .success _ => true
  | _ => false

/-- The invocation count of a retry loop never exceeds the starting count
plus the remaining fuel (loop iterations left). -/
lemma retryGo_invocations_le {α : Type} (maxR : Int) (oracle : Nat → CallOutcome α) :
    ∀ fuel attempt lastE inv sl,
      (retryGo maxR oracle fuel attempt lastE inv sl).invocations ≤ inv + fuel := by
  intro fuel
  induction fuel with
  | zero =>
    intro attempt lastE inv sl
    cases lastE <;> simp [retryGo]
  | succ n ih =>
    intro attempt lastE inv sl
    unfold retryGo
    cases horc : oracle attempt with
    | success v => simp
    | apiExc st txt =>
      cases st with
      | some s =>
        by_cases h2 : s = 429
        · subst h2
          have h5 := ih (attempt + 1) (some (RetryExc.api (some 429) txt))
            (inv + 1) (2 ^ attempt :: sl)
          simp
          omega
        · by_cases h1 : 400 ≤ s ∧ s < 500
          · simp [h1, h2]
          · by_cases h3 : 500 ≤ s ∧ s < 600 ∧ (attempt : Int) < maxR
            · have h5 := ih (attempt + 1) (some (RetryExc.api (some s) txt))
                (inv + 1) (2 ^ attempt :: sl)
              simp [h1, h2, h3]
              omega
            · by_cases h4 : (attempt : Int) < maxR
              · have h5 := ih (attempt + 1) (some (RetryExc.api (some s) txt))
                  (inv + 1) (2 ^ attempt :: sl)
                simp [h1, h2, h3, h4]
                omega
              · simp [h1, h2, h3, h4]
      | none =>
        by_cases h4 : (attempt : Int) < maxR
        · have h5 := ih (attempt + 1) (some (RetryExc.api none txt))
            (inv + 1) (2 ^ attempt :: sl)
          simp [h4]
          omega
        · simp [h4]
    | exc txt =>
      by_cases h4 : (attempt : Int) < maxR
      · have h5 := ih (attempt + 1) (some (RetryExc.other txt))
          (inv + 1) (2 ^ attempt :: sl)
        simp [h4]
        omega
      · simp [h4]

/-- The invocation count of a retry loop never decreases below its start. -/
lemma retryGo_invocations_ge {α : Type} (maxR : Int) (oracle : Nat → CallOutcome α) :
    ∀ fuel attempt lastE inv sl,
      inv ≤ (retryGo maxR oracle fuel attempt lastE inv sl).invocations := by
  intro fuel
  induction fuel with
  | zero =>
    intro attempt lastE inv sl
    cases lastE <;> simp [retryGo]
  | succ n ih =>
    intro attempt lastE inv sl
    unfold retryGo
    cases horc : oracle attempt with
    | success v => simp
    | apiExc st txt =>
      cases st with
      | some s =>
        by_cases h2 : s = 429
        · subst h2
          have h5 := ih (attempt + 1) (some (RetryExc.api (some 429) txt))
            (inv + 1) (2 ^ attempt :: sl)
          simp
          omega
        · by_cases h1 : 400 ≤ s ∧ s < 500
          · simp [h1, h2]
          · by_cases h3 : 500 ≤ s ∧ s < 600 ∧ (attempt : Int) < maxR
            · have h5 := ih (attempt + 1) (some (RetryExc.api (some s) txt))
                (inv + 1) (2 ^ attempt :: sl)
              simp [h1, h2, h3]
              omega
            · by_cases h4 : (attempt : Int) < maxR
              · have h5 := ih (attempt + 1) (some (RetryExc.api (some s) txt))
                  (inv + 1) (2 ^ attempt :: sl)
                simp [h1, h2, h3, h4]
                omega
              · simp [h1, h2, h3, h4]
      | none =>
        by_cases h4 : (attempt : Int) < maxR
        · have h5 := ih (attempt + 1) (some (RetryExc.api none txt))
            (inv + 1) (2 ^ attempt :: sl)
          simp [h4]
          omega
        · simp [h4]
    | exc txt =>
      by_cases h4 : (attempt : Int) < maxR
      · have h5 := ih (attempt + 1) (some (RetryExc.other txt))
          (inv + 1) (2 ^ attempt :: sl)
        simp [h4]
        omega
      · simp [h4]

/-- With fuel left, the loop body runs at least once more. -/
lemma retryGo_invocations_succ {α : Type} (maxR : Int)
    (oracle : Nat → CallOutcome α) (fuel attempt : Nat) (lastE : Option RetryExc)
    (inv : Nat) (sl : List Nat) (hf : 1 ≤ fuel) :
    inv + 1 ≤ (retryGo maxR oracle fuel attempt lastE inv sl).invocations := by
  cases fuel with
  | zero => omega
  | succ n =>
    unfold retryGo
    cases horc : oracle attempt with
    | success v => simp
    | apiExc st txt =>
      cases st with
      | some s =>
        by_cases h2 : s = 429
        · subst h2
          have h5 := retryGo_invocations_ge maxR oracle n (attempt + 1)
            (some (RetryExc.api (some 429) txt)) (inv + 1) (2 ^ attempt :: sl)
          simp
          omega
        · by_cases h1 : 400 ≤ s ∧ s < 500
          · simp [h1, h2]
          · by_cases h3 : 500 ≤ s ∧ s < 600 ∧ (attempt : Int) < maxR
            · have h5 := retryGo_invocations_ge maxR oracle n (attempt + 1)
                (some (RetryExc.api (some s) txt)) (inv + 1) (2 ^ attempt :: sl)
              simp [h1, h2, h3]
              omega
            · by_cases h4 : (attempt : Int) < maxR
              · have h5 := retryGo_invocations_ge maxR oracle n (attempt + 1)
                  (some (RetryExc.api (some s) txt)) (inv + 1) (2 ^ attempt :: sl)
                simp [h1, h2, h3, h4]
                omega
              · simp [h1, h2, h3, h4]
      | none =>
        by_cases h4 : (attempt : Int) < maxR
        · have h5 := retryGo_invocations_ge maxR oracle n (attempt + 1)
            (some (RetryExc.api none txt)) (inv + 1) (2 ^ attempt :: sl)
          simp [h4]
          omega
        · simp [h4]
    | exc txt =>
      by_cases h4 : (attempt : Int) < maxR
      · have h5 := retryGo_invocations_ge maxR oracle n (attempt + 1)
          (some (RetryExc.other txt)) (inv + 1) (2 ^ attempt :: sl)
        simp [h4]
        omega
      · simp [h4]

/-- If every invocation raises, a retry loop that has fuel or a recorded
last exception ends by raising. -/
lemma retryGo_all_fail_raises {α : Type} (maxR : Int)
    (oracle : Nat → CallOutcome α)
    (hfail : ∀ k, (oracle k).isSuccess = false) :
    ∀ fuel attempt lastE inv sl, (fuel = 0 → lastE ≠ none) →
      ∃ e, (retryGo maxR oracle fuel attempt lastE inv sl).outcome = .raised e := by
  intro fuel
  induction fuel with
  | zero =>
    intro attempt lastE inv sl hl
    cases lastE with
    | none => exact absurd rfl (hl rfl)
    | some e => exact ⟨e, by simp [retryGo]⟩
  | succ n ih =>
    intro attempt lastE inv sl _
    unfold retryGo
    cases horc : oracle attempt with
    | success v =>
      have hk := hfail attempt
      rw [horc] at hk
      simp [CallOutcome.isSuccess] at hk
    | apiExc st txt =>
      cases st with
      | some s =>
        by_cases h2 : s = 429
        · subst h2
          have h5 := ih (attempt + 1) (some (RetryExc.api (some 429) txt))
            (inv + 1) (2 ^ attempt :: sl) (by simp)
          simpa using h5
        · by_cases h1 : 400 ≤ s ∧ s < 500
          · exact ⟨.api (some s) txt, by simp [h1, h2]⟩
          · by_cases h3 : 500 ≤ s ∧ s < 600 ∧ (attempt : Int) < maxR
            · have h5 := ih (attempt + 1) (some (RetryExc.api (some s) txt))
                (inv + 1) (2 ^ attempt :: sl) (by simp)
              simpa [h1, h2, h3] using h5
            · by_cases h4 : (attempt : Int) < maxR
              · have h5 := ih (attempt + 1) (some (RetryExc.api (some s) txt))
                  (inv + 1) (2 ^ attempt :: sl) (by simp)
                simpa [h1, h2, h3, h4] using h5
              · exact ⟨.api (some s) txt, by simp [h1, h2, h3, h4]⟩
      | none =>
        by_cases h4 : (attempt : Int) < maxR
        · have h5 := ih (attempt + 1) (some (RetryExc.api none txt))
            (inv + 1) (2 ^ attempt :: sl) (by simp)
          simpa [h4] using h5
        · exact ⟨.api none txt, by simp [h4]⟩
    | exc txt =>
      by_cases h4 : (attempt : Int) < maxR
      · have h5 := ih (attempt + 1) (some (RetryExc.other txt))
          (inv + 1) (2 ^ attempt :: sl) (by simp)
        simpa [h4] using h5
      · exact ⟨.other txt, by simp [h4]⟩

/-- A wrapped function that always raises a generic exception. -/
def alwaysExc : Nat → CallOutcome Unit := fun _ => CallOutcome.exc "boom"

/-- A wrapped function that always raises HTTP 429. -/
def always429 : Nat → CallOutcome Unit :=
  fun _ => CallOutcome.apiExc (some 429) "rate limited"

/-- C3 (amended: `max_retries ≥ 0`): `_call_with_retry` invokes the wrapped
function at most `max_retries + 1` times, and if every invocation raises it
ends by raising an exception rather than returning normally. -/
theorem C3_retry_bound_amended {α : Type} (maxR : Int)
    (oracle : Nat → CallOutcome α) (h : 0 ≤ maxR) :
    ((call_with_retry maxR oracle).invocations : Int) ≤ maxR + 1 ∧
    ((∀ k, (oracle k).isSuccess = false) →
      ∃ e, (call_with_retry maxR oracle).outcome = .raised e) := by
  constructor
  · have h1 := retryGo_invocations_le maxR oracle (maxR + 1).toNat 0 none 0 []
    unfold call_with_retry
    omega
  · intro hfail
    unfold call_with_retry
    apply retryGo_all_fail_raises maxR oracle hfail
    intro h0
    exact absurd h0 (by omega)

/-- C3 witness: at the default `max_retries = 3` with an always-failing
call, at most 4 invocations happen and an exception is raised. -/
theorem C3_retry_bound_amended_witness :
    (0 : Int) ≤ 3 ∧
    (((call_with_retry 3 alwaysExc).invocations : Int) ≤ 3 + 1 ∧
     ((∀ k, (alwaysExc k).isSuccess = false) →
       ∃ e, (call_with_retry 3 alwaysExc).outcome = .raised e)) :=
  ⟨by norm_num, C3_retry_bound_amended 3 alwaysExc (by norm_num)⟩

/-- C3 counterexample: with `max_retries = -1` (reachable via
`--max-retries -1`), the `for attempt in range(max_retries + 1)` loop body
never runs, so although every invocation raises (vacuously — there are
none), `_call_with_retry` returns normally (Python's implicit `None`)
instead of raising. -/
theorem C3_counterexample :
    (∀ k, (alwaysExc k).isSuccess = false) ∧
    call_with_retry (-1) alwaysExc =
      ⟨RetryOutcome.returned none, 0, []⟩ := by
  constructor
  · intro k; rfl
  · rfl

/-- C4 (amended): inside `_call_with_retry`, an `ApiException` with status
in 400–499 other than 429 is re-raised immediately with no further
invocation and no backoff sleep; a 429 always sleeps `2^k` seconds after
failed attempt `k` and continues the loop; a 5xx with `k < max_retries`
sleeps `2^k` and continues; a 5xx at the final attempt is re-raised without
sleeping; a continued loop with an attempt remaining really re-invokes the
wrapped function, while a continued loop with no attempt remaining (a 429
at the final attempt) re-raises after its sleep without another
invocation. -/
theorem C4_retry_policy_amended {α : Type} (maxR : Int)
    (oracle : Nat → CallOutcome α) (fuel attempt : Nat)
    (lastE : Option RetryExc) (inv : Nat) (sl : List Nat)
    (s : Int) (txt : String) :
    (oracle attempt = .apiExc (some s) txt → 400 ≤ s → s < 500 → s ≠ 429 →
      retryGo maxR oracle (fuel + 1) attempt lastE inv sl =
        ⟨.raised (.api (some s) txt), inv + 1, sl.reverse⟩) ∧
    (oracle attempt = .apiExc (some s) txt → s = 429 →
      retryGo maxR oracle (fuel + 1) attempt lastE inv sl =
        retryGo maxR oracle fuel (attempt + 1) (some (.api (some s) txt))
          (inv + 1) (2 ^ attempt :: sl)) ∧
    (oracle attempt = .apiExc (some s) txt → 500 ≤ s → s < 600 →
      (attempt : Int) < maxR →
      retryGo maxR oracle (fuel + 1) attempt lastE inv sl =
        retryGo maxR oracle fuel (attempt + 1) (some (.api (some s) txt))
          (inv + 1) (2 ^ attempt :: sl)) ∧
    (oracle attempt = .apiExc (some s) txt → 500 ≤ s → s < 600 →
      ¬ (attempt : Int) < maxR →
      retryGo maxR oracle (fuel + 1) attempt lastE inv sl =
        ⟨.raised (.api (some s) txt), inv + 1, sl.reverse⟩) ∧
    (1 ≤ fuel →
      inv + 2 ≤ (retryGo maxR oracle fuel (attempt + 1)
        (some (.api (some s) txt)) (inv + 1) (2 ^ attempt :: sl)).invocations) ∧
    (retryGo maxR oracle 0 (attempt + 1) (some (.api (some s) txt))
        (inv + 1) (2 ^ attempt :: sl) =
      ⟨.raised (.api (some s) txt), inv + 1, (2 ^ attempt :: sl).reverse⟩) := by
  refine ⟨?_, ?_, ?_, ?_, ?_, ?_⟩
  · intro horc h4a h4b h4ne
    unfold retryGo
    rw [horc]
    simp [h4a, h4b, h4ne]
  · intro horc h429
    subst h429
    conv_lhs => unfold retryGo
    simp [horc]
  · intro horc h5a h5b hlt
    have hne : s ≠ 429 := by omega
    have hn4 : ¬ s < 500 := by omega
    conv_lhs => unfold retryGo
    simp [horc, hne, hn4, h5a, h5b, hlt]
  · intro horc h5a h5b hge
    have hne : s ≠ 429 := by omega
    have hn4 : ¬ s < 500 := by omega
    have hn3 : ¬ (500 ≤ s ∧ s < 600 ∧ (attempt : Int) < maxR) := by
      intro hc; exact hge hc.2.2
    unfold retryGo
    rw [horc]
    simp [hne, hn4, hn3, hge]
  · intro hf
    exact retryGo_invocations_succ maxR oracle fuel (attempt + 1)
      (some (.api (some s) txt)) (inv + 1) (2 ^ attempt :: sl) hf
  · simp [retryGo]

/-- C4 counterexample: with `max_retries = 0` and every invocation raising
HTTP 429, the function is invoked exactly once — it is never retried,
contrary to the claim — although the `2^0 = 1` second backoff sleep is
still performed before the exception is re-raised. -/
theorem C4_counterexample :
    always429 0 = CallOutcome.apiExc (some 429) "rate limited" ∧
    call_with_retry 0 always429 =
      ⟨RetryOutcome.raised (RetryExc.api (some 429) "rate limited"), 1, [1]⟩ ∧
    ¬ 2 ≤ (call_with_retry 0 always429).invocations := by
  refine ⟨rfl, by decide, by decide⟩

/-- A successful impact check is exactly `(True, trade_id, None)`. -/
lemma check_order_impact_ok_eq {env : ApiEnv} {o : OrderRow} {sid : String}
    (h : (check_order_impact env o sid).1 = true) :
    check_order_impact env o sid =
      (true, some ((check_order_impact env o sid).2.1.getD ""), none) := by
  obtain ⟨t, ht, hne⟩ := check_order_impact_ok h
  have herr : (check_order_impact env o sid).2.2 = none := by
    unfold check_order_impact at h ⊢
    cases henv : env.impact o sid with
    | error e =>
      rw [henv] at h
      by_cases ha : e.isApi <;> simp [ha] at h
    | ok data =>
      rw [henv] at h
      by_cases hf : pyFalsy (pyOrOpt data.trade_id data.tradeId) = true
      · simp [hf] at h
      · simp [hf]
  calc check_order_impact env o sid
      = ((check_order_impact env o sid).1, (check_order_impact env o sid).2.1,
         (check_order_impact env o sid).2.2) := rfl
    _ = (true, some ((check_order_impact env o sid).2.1.getD ""), none) := by
        rw [h, ht, herr]
        simp

/-- C1: `process_single_order` runs its steps in the fixed order — duplicate
check, symbol resolution (one quotes call), impact check, placement,
reporting — a failing step yields the row's `OrderResult` with no later API
call, and a `placeCall` ever appearing in the trace carries exactly the
trade id of a successful impact check for this very order, in live mode,
past the duplicate check. -/
theorem C1_pipeline_order (env : ApiEnv) (dry : Bool) (o : OrderRow)
    (seen : List String) :
    (process_single_order env dry o seen).1.row_num = o.row_num ∧
    (o.idempotency_key ∈ seen →
      (process_single_order env dry o seen).1.status = "SKIPPED" ∧
      (process_single_order env dry o seen).2.2 = []) ∧
    (o.idempotency_key ∉ seen →
      pyFalsy (get_universal_symbol_id env o.ticker o.exchange).1 = true →
      (process_single_order env dry o seen).1.status = "FAILED" ∧
      (process_single_order env dry o seen).2.2 = [ApiCall.quotesCall o.ticker]) ∧
    (o.idempotency_key ∉ seen →
      pyFalsy (get_universal_symbol_id env o.ticker o.exchange).1 = false →
      (check_order_impact env o
          ((get_universal_symbol_id env o.ticker o.exchange).1.getD "")).1 = false →
      (process_single_order env dry o seen).1.status = "FAILED" ∧
      (process_single_order env dry o seen).2.2 =
        [ApiCall.quotesCall o.ticker,
         ApiCall.impactCall
           ((get_universal_symbol_id env o.ticker o.exchange).1.getD "")]) ∧
    (o.idempotency_key ∉ seen →
      pyFalsy (get_universal_symbol_id env o.ticker o.exchange).1 = false →
      (check_order_impact env o
          ((get_universal_symbol_id env o.ticker o.exchange).1.getD "")).1 = true →
      dry = true →
      (process_single_order env dry o seen).1.status = "VALIDATED" ∧
      (process_single_order env dry o seen).2.2 =
        [ApiCall.quotesCall o.ticker,
         ApiCall.impactCall
           ((get_universal_symbol_id env o.ticker o.exchange).1.getD "")]) ∧
    (o.idempotency_key ∉ seen →
      pyFalsy (get_universal_symbol_id env o.ticker o.exchange).1 = false →
      (check_order_impact env o
          ((get_universal_symbol_id env o.ticker o.exchange).1.getD "")).1 = true →
      dry = false →
      (place_order env ((check_order_impact env o
          ((get_universal_symbol_id env o.ticker o.exchange).1.getD "")).2.1.getD "")).1 = false →
      (process_single_order env dry o seen).1.status = "FAILED" ∧
      (process_single_order env dry o seen).2.2 =
        [ApiCall.quotesCall o.ticker,
         ApiCall.impactCall
           ((get_universal_symbol_id env o.ticker o.exchange).1.getD ""),
         ApiCall.placeCall ((check_order_impact env o
           ((get_universal_symbol_id env o.ticker o.exchange).1.getD "")).2.1.getD "")]) ∧
    (o.idempotency_key ∉ seen →
      pyFalsy (get_universal_symbol_id env o.ticker o.exchange).1 = false →
      (check_order_impact env o
          ((get_universal_symbol_id env o.ticker o.exchange).1.getD "")).1 = true →
      dry = false →
      (place_order env ((check_order_impact env o
          ((get_universal_symbol_id env o.ticker o.exchange).1.getD "")).2.1.getD "")).1 = true →
      (process_single_order env dry o seen).1.status = "PLACED" ∧
      (process_single_order env dry o seen).2.2 =
        [ApiCall.quotesCall o.ticker,
         ApiCall.impactCall
           ((get_universal_symbol_id env o.ticker o.exchange).1.getD ""),
         ApiCall.placeCall ((check_order_impact env o
           ((get_universal_symbol_id env o.ticker o.exchange).1.getD "")).2.1.getD "")] ++
        (if o.account_id ≠ "" then [ApiCall.refreshCall o.account_id] else [])) ∧
    (∀ t, ApiCall.placeCall t ∈ (process_single_order env dry o seen).2.2 →
      dry = false ∧ o.idempotency_key ∉ seen ∧
      check_order_impact env o
          ((get_universal_symbol_id env o.ticker o.exchange).1.getD "") =
        (true, some t, none)) := by
  by_cases hdup : o.idempotency_key ∈ seen
  · rw [psc_dup hdup]
    simp [dupResult, hdup]
  · by_cases hr : pyFalsy (get_universal_symbol_id env o.ticker o.exchange).1 = true
    · rw [psc_resolve_fail hdup hr, gus_trace]
      simp [symbolNotFoundResult, hdup, hr]
    · have hr' : pyFalsy (get_universal_symbol_id env o.ticker o.exchange).1 = false := by
        simpa using hr
      by_cases hi : (check_order_impact env o
          ((get_universal_symbol_id env o.ticker o.exchange).1.getD "")).1 = true
      · cases dry with
        | true =>
          rw [psc_dry hdup hr' hi, gus_trace]
          simp [dryRunResult, hdup, hr', hi]
        | false =>
          by_cases hp : (place_order env ((check_order_impact env o
              ((get_universal_symbol_id env o.ticker o.exchange).1.getD "")).2.1.getD "")).1 = true
          · rw [psc_placed hdup hr' hi hp, gus_trace]
            refine ⟨rfl, by simp [hdup], by simp [hr'], by simp [hi], by simp, by simp [hp], ?_, ?_⟩
            · intro _ _ _ _ _
              constructor
              · simp [placedResult]
              · by_cases ha : o.account_id = "" <;> simp [ha]
            · intro t hmem
              by_cases ha : o.account_id = "" <;> simp [ha] at hmem <;>
                exact ⟨rfl, hdup, by rw [hmem]; exact check_order_impact_ok_eq hi⟩
          · have hp' : (place_order env ((check_order_impact env o
                ((get_universal_symbol_id env o.ticker o.exchange).1.getD "")).2.1.getD "")).1 = false := by
              simpa using hp
            rw [psc_place_fail hdup hr' hi hp', gus_trace]
            refine ⟨rfl, by simp [hdup], by simp [hr'], by simp [hi], by simp, ?_, by simp [hp'], ?_⟩
            · intro _ _ _ _ _
              exact ⟨by simp [placeFailResult], by simp⟩
            · intro t hmem
              simp at hmem
              exact ⟨rfl, hdup, by rw [hmem]; exact check_order_impact_ok_eq hi⟩
      · have hi' : (check_order_impact env o
            ((get_universal_symbol_id env o.ticker o.exchange).1.getD "")).1 = false := by
          simpa using hi
        rw [psc_impact_fail hdup hr' hi', gus_trace]
        simp [impactFailResult, hdup, hr', hi']

/-- Agreement of two orders on the eight fields that feed
`idempotency_key` (row number and exchange are free to differ). -/
def fieldsAgree (o1 o2 : OrderRow) : Prop :=
  o1.account_id = o2.account_id ∧ o1.ticker = o2.ticker ∧ o1.side = o2.side ∧
  o1.quantity = o2.quantity ∧ o1.order_type = o2.order_type ∧
  o1.limit_price = o2.limit_price ∧ o1.stop_price = o2.stop_price ∧
  o1.time_in_force = o2.time_in_force

instance (o1 o2 : OrderRow) : Decidable (fieldsAgree o1 o2) := by
  unfold fieldsAgree
  infer_instance

/-- The idempotency key is a function of the eight agreed fields alone. -/
lemma idempotency_key_congr {o1 o2 : OrderRow} (h : fieldsAgree o1 o2) :
    o1.idempotency_key = o2.idempotency_key := by
  obtain ⟨h1, h2, h3, h4, h5, h6, h7, h8⟩ := h
  unfold OrderRow.idempotency_key
  rw [h1, h2, h3, h4, h5, h6, h7, h8]

/-- Past the duplicate check, the key is added to the seen set. -/
lemma psc_nodup_seen (env : ApiEnv) (dry : Bool) (o : OrderRow)
    (seen : List String) (h : o.idempotency_key ∉ seen) :
    (process_single_order env dry o seen).2.1 = o.idempotency_key :: seen := by
  unfold process_single_order
  simp only [h, if_false, ite_false, if_neg, not_false_iff]
  split
  · rfl
  · split
    · rfl
    · split
      · rfl
      · split
        · rfl
        · rfl

/-- The processed order's key is always in the updated seen set. -/
lemma psc_key_mem (env : ApiEnv) (dry : Bool) (o : OrderRow)
    (seen : List String) :
    o.idempotency_key ∈ (process_single_order env dry o seen).2.1 := by
  by_cases hdup : o.idempotency_key ∈ seen
  · rw [psc_dup hdup]
    exact hdup
  · rw [psc_nodup_seen env dry o seen hdup]
    exact List.mem_cons_self _ _

/-- Processing an order only grows the seen set. -/
lemma psc_seen_sub (env : ApiEnv) (dry : Bool) (o : OrderRow)
    (seen : List String) :
    seen ⊆ (process_single_order env dry o seen).2.1 := by
  by_cases hdup : o.idempotency_key ∈ seen
  · rw [psc_dup hdup]
    exact fun a ha => ha
  · rw [psc_nodup_seen env dry o seen hdup]
    exact fun a ha => List.mem_cons_of_mem _ ha

/-- Sequential processing yields one result/trace pair per order. -/
lemma seq_length (env : ApiEnv) (dry : Bool) (vs : List OrderRow) :
    ∀ seen, ((processValidatedSeq env dry vs seen).1).length = vs.length := by
  induction vs with
  | nil => intro seen; rfl
  | cons o rest ih =>
    intro seen
    simp [processValidatedSeq, ih]

/-- Sequential processing only grows the seen set. -/
lemma seq_seen_sub (env : ApiEnv) (dry : Bool) (vs : List OrderRow) :
    ∀ seen, seen ⊆ (processValidatedSeq env dry vs seen).2 := by
  induction vs with
  | nil => intro seen; exact fun a ha => ha
  | cons o rest ih =>
    intro seen
    exact fun a ha => ih _ (psc_seen_sub env dry o seen ha)

/-- Sequential processing splits along list append. -/
lemma seq_append (env : ApiEnv) (dry : Bool) (xs ys : List OrderRow) :
    ∀ seen, processValidatedSeq env dry (xs ++ ys) seen =
      ((processValidatedSeq env dry xs seen).1 ++
        (processValidatedSeq env dry ys (processValidatedSeq env dry xs seen).2).1,
       (processValidatedSeq env dry ys (processValidatedSeq env dry xs seen).2).2) := by
  induction xs with
  | nil => intro seen; rfl
  | cons o rest ih =>
    intro seen
    simp [processValidatedSeq, ih]

/-- C2: in a sequential run, whenever two validated orders agree on
account_id, ticker, side, quantity, order_type, limit_price, stop_price and
time_in_force, the one processed second gets the SKIPPED duplicate result
and makes no API call at all (empty trace: no resolution, impact or
placement). -/
theorem C2_duplicate_skipped (env : ApiEnv) (dry : Bool)
    (l1 l2 l3 : List OrderRow) (o1 o2 : OrderRow) (seen0 : List String)
    (h : fieldsAgree o1 o2) :
    ((processValidatedSeq env dry (l1 ++ o1 :: (l2 ++ o2 :: l3)) seen0).1)[l1.length + 1 + l2.length]? =
      some (dupResult o2.row_num, ([] : List ApiCall)) := by
  rw [seq_append env dry l1 (o1 :: (l2 ++ o2 :: l3)) seen0]
  have hlen1 : ((processValidatedSeq env dry l1 seen0).1).length = l1.length :=
    seq_length env dry l1 seen0
  rw [List.getElem?_append_right (by omega)]
  rw [hlen1]
  have hidx : l1.length + 1 + l2.length - l1.length = l2.length + 1 := by omega
  rw [hidx]
  have hcons : (processValidatedSeq env dry (o1 :: (l2 ++ o2 :: l3))
      (processValidatedSeq env dry l1 seen0).2) =
      (((process_single_order env dry o1 (processValidatedSeq env dry l1 seen0).2).1,
        (process_single_order env dry o1 (processValidatedSeq env dry l1 seen0).2).2.2) ::
        (processValidatedSeq env dry (l2 ++ o2 :: l3)
          (process_single_order env dry o1 (processValidatedSeq env dry l1 seen0).2).2.1).1,
       (processValidatedSeq env dry (l2 ++ o2 :: l3)
          (process_single_order env dry o1 (processValidatedSeq env dry l1 seen0).2).2.1).2) := rfl
  rw [hcons]
  rw [List.getElem?_cons_succ]
  rw [seq_append env dry l2 (o2 :: l3)]
  have hlen2 : ((processValidatedSeq env dry l2
      (process_single_order env dry o1 (processValidatedSeq env dry l1 seen0).2).2.1).1).length =
      l2.length := seq_length env dry l2 _
  rw [List.getElem?_append_right (by omega)]
  rw [hlen2, Nat.sub_self]
  have hmem : o2.idempotency_key ∈
      (processValidatedSeq env dry l2
        (process_single_order env dry o1 (processValidatedSeq env dry l1 seen0).2).2.1).2 := by
    apply seq_seen_sub
    rw [← idempotency_key_congr h]
    exact psc_key_mem env dry o1 _
  have hcons2 : (processValidatedSeq env dry (o2 :: l3)
      (processValidatedSeq env dry l2
        (process_single_order env dry o1 (processValidatedSeq env dry l1 seen0).2).2.1).2) =
      (((process_single_order env dry o2 _).1,
        (process_single_order env dry o2 _).2.2) ::
        (processValidatedSeq env dry l3 (process_single_order env dry o2 _).2.1).1,
       (processValidatedSeq env dry l3 (process_single_order env dry o2 _).2.1).2) := rfl
  rw [hcons2, List.getElem?_cons_zero]
  rw [psc_dup hmem]

/-- An environment where every SnapTrade endpoint raises. -/
def envEmpty : ApiEnv :=
  { quotes := fun _ => .error ⟨true, "down"⟩
    impact := fun _ _ => .error ⟨true, "down"⟩
    placeResp := fun _ => .error ⟨true, "down"⟩ }

/-- An environment where ticker AAA has two listings on different
exchanges, with different universal symbol ids. -/
def envTwoListings : ApiEnv :=
  { quotes := fun t =>
      if t = "AAA" then
        .ok [⟨"AAA", "NYSE", some "id-nyse", none⟩,
             ⟨"AAA", "NASDAQ", some "id-nasdaq", none⟩]
      else .ok []
    impact := fun _ _ => .error ⟨true, "down"⟩
    placeResp := fun _ => .error ⟨true, "down"⟩ }

/-- A concrete validated order. -/
def oA : OrderRow :=
  { row_num := 2, account_id := "A1", ticker := "AAPL", side := "BUY",
    quantity := PyDecValue.fin ⟨false, 10, 0⟩, order_type := "MARKET", limit_price := none,
    stop_price := none, time_in_force := "DAY", exchange := some "NASDAQ" }

/-- The same order on another row with another exchange. -/
def oB : OrderRow :=
  { row_num := 3, account_id := "A1", ticker := "AAPL", side := "BUY",
    quantity := PyDecValue.fin ⟨false, 10, 0⟩, order_type := "MARKET", limit_price := none,
    stop_price := none, time_in_force := "DAY", exchange := some "NYSE" }

/-- C2 witness: two identical orders (rows 2 and 3) back to back — the
second is SKIPPED as a duplicate with an empty trace. -/
theorem C2_duplicate_skipped_witness :
    fieldsAgree oA oB ∧
    ((processValidatedSeq envEmpty false
        (([] : List OrderRow) ++ oA :: (([] : List OrderRow) ++ oB :: [])) []).1)[
          ([] : List OrderRow).length + 1 + ([] : List OrderRow).length]? =
      some (dupResult oB.row_num, ([] : List ApiCall)) :=
  ⟨by decide, C2_duplicate_skipped envEmpty false [] [] [] oA oB [] (by decide)⟩

/-- C9: the idempotency key depends only on the eight agreed fields — two
orders differing only in exchange (and row number) share a key, so the
second processed is SKIPPED as a duplicate — even though the exchange field
does change what the ticker resolves to (shown on a concrete two-listing
environment). -/
theorem C9_key_ignores_exchange (o1 o2 : OrderRow) (env : ApiEnv) (dry : Bool)
    (seen : List String) (h : fieldsAgree o1 o2) :
    o1.idempotency_key = o2.idempotency_key ∧
    process_single_order env dry o2 (process_single_order env dry o1 seen).2.1 =
      (dupResult o2.row_num, (process_single_order env dry o1 seen).2.1, []) ∧
    (get_universal_symbol_id envTwoListings "AAA" (some "NYSE")).1 ≠
      (get_universal_symbol_id envTwoListings "AAA" (some "NASDAQ")).1 := by
  refine ⟨idempotency_key_congr h, ?_, by decide⟩
  apply psc_dup
  rw [← idempotency_key_congr h]
  exact psc_key_mem env dry o1 seen

/-- C9 witness: rows 2 and 3 differ only in exchange and row number; keys
agree and the second is skipped, while exchange does steer resolution. -/
theorem C9_key_ignores_exchange_witness :
    fieldsAgree oA oB ∧
    (oA.idempotency_key = oB.idempotency_key ∧
     process_single_order envEmpty false oB
         (process_single_order envEmpty false oA []).2.1 =
       (dupResult oB.row_num, (process_single_order envEmpty false oA []).2.1, []) ∧
     (get_universal_symbol_id envTwoListings "AAA" (some "NYSE")).1 ≠
       (get_universal_symbol_id envTwoListings "AAA" (some "NASDAQ")).1) :=
  ⟨by decide, C9_key_ignores_exchange oA oB envEmpty false [] (by decide)⟩


/-- A CSV row whose quantity is `"NaN"` — a literal `Decimal(str)` accepts. -/
def nanRow : RowDict :=
  [("account_id", ""), ("ticker", "AAPL"), ("side", "BUY"), ("quantity", "NaN"),
   ("order_type", "MARKET"), ("limit_price", ""), ("stop_price", ""),
   ("time_in_force", ""), ("exchange", "")]

/-- The same row with quantity `"Infinity"`. -/
def infRow : RowDict :=
  [("account_id", ""), ("ticker", "AAPL"), ("side", "BUY"), ("quantity", "Infinity"),
   ("order_type", "MARKET"), ("limit_price", ""), ("stop_price", ""),
   ("time_in_force", ""), ("exchange", "")]

/-- The same row with the ordinary quantity `"10"`. -/
def goodRow : RowDict :=
  [("account_id", ""), ("ticker", "AAPL"), ("side", "BUY"), ("quantity", "10"),
   ("order_type", "MARKET"), ("limit_price", ""), ("stop_price", ""),
   ("time_in_force", ""), ("exchange", "")]

/-- The `OrderRow` that `validate_order_row` builds from `infRow`. -/
def infOrder : OrderRow :=
  { row_num := 2, account_id := "", ticker := "AAPL", side := "BUY",
    quantity := PyDecValue.inf false, order_type := "MARKET", limit_price := none,
    stop_price := none, time_in_force := "DAY", exchange := none }

/-- C8: code-bug evidence.  `Decimal(str)` accepts the special literals, so
on a row whose quantity is `"NaN"` `validate_order_row` raises
`decimal.InvalidOperation` from the `quantity <= 0` comparison instead of
returning a pair with exactly one `None` component (contradicting its own
docstring); on quantity `"Infinity"` it returns an `OrderRow` whose quantity
is infinite; and `parse_decimal` also accepts underscored literals such as
`"1_0"`. -/
theorem C8_nan_quantity_raises :
    validate_order_row nanRow 2 = Except.error "decimal.InvalidOperation" ∧
    validate_order_row infRow 2 = Except.ok (some infOrder, none) ∧
    parse_decimal "1_0" = some (PyDecValue.fin ⟨false, 10, 0⟩) :=
  ⟨rfl, rfl, rfl⟩

/-- C7: code-bug evidence.  A single row with quantity `"NaN"` makes the
unguarded validation pass of `process_orders` raise
`decimal.InvalidOperation`, so the batch returns no results at all — not
even for the preceding valid row — falsifying one-result-per-input-tuple;
the same batch without the NaN row does get its per-row result. -/
theorem C7_nan_row_crashes_batch :
    process_orders envEmpty false [(2, goodRow), (3, nanRow)] =
      Except.error "decimal.InvalidOperation" ∧
    process_orders envEmpty false [(2, goodRow)] =
      Except.ok [(⟨2, "FAILED", "Symbol not found: AAPL", none, none⟩ : OrderResult)] :=
  ⟨rfl, rfl⟩
